import Mathlib

/-!
Shallow embedding of the web3diag core: the `StatsCollector` trace and
byte-sink data model with its mutators (main.go), and the four reporters
with the dispatch loop (reporters.go).

Modelling conventions, all translated from the Go source:
* timestamps (Go `int64`, nanoseconds or whole seconds) are `Int`; the
  wall clock read by a mutator (`time.Now()`) is an explicit argument;
* byte counters (Go `uint64`; a transfer is bounded by the 30-second
  client timeout, so the counters cannot wrap) are `Nat`;
* Go's `map[string][]string` header maps are association lists with
  unique keys; indexing an absent key yields `[]`, Go's nil slice;
* the `net.Addr` interface fields are `Option String` (`none` is Go's
  nil interface value, on which calling `String()` panics);
* `float64` second-durations are `ℚ` (`float64` carries these small
  integer nanosecond differences exactly apart from rounding, and no
  claim is about rounding);
* Go `error` values are `Option String`;
* the third-party `tablewriter` dependency (an excluded external
  collaborator per the spec) is modelled as a renderer that emits the
  header row followed by each appended row, the cells of a row in order.
-/

/-- Outcome of one reporter call: the Go `(string, error)` pair, with a
distinguished `panicked` outcome for a run-time panic such as calling
`String()` on a nil `net.Addr` interface value. -/
inductive Outcome where
  | ok (body : String)
  | err (msg : String)
  | panicked
  deriving DecidableEq, Repr

/-- Go `map[string][]string` as an association list (Go map keys are
unique; iteration order is the list order). -/
abbrev Headers := List (String × List String)

/-- Go map indexing `h[k]`: the value slice, or the nil slice (`[]`)
when the key is absent. -/
def hdrGet : Headers → String → List String
  | [], _ => []
  | (k', vs) :: t, k => if k' == k then vs else hdrGet t k

/-- Go `v[0]` on a header value slice; every call site in the source is
guarded by a nil check, so the list is non-empty there. -/
def hdr0 : List String → String
  | [] => ""
  | v :: _ => v

/-- `StatsCollector.Dns` (main.go): the DNS lookup phase record.
Resolved addresses are kept as their rendered strings. -/
structure DnsPhase where
  StartTime : Int := 0
  EndTime : Int := 0
  Host : String := ""
  Addrs : List String := []

/-- `StatsCollector.Tls` (main.go): the TLS handshake phase record. -/
structure TlsPhase where
  StartTime : Int := 0
  EndTime : Int := 0
  Version : Nat := 0
  ServerName : String := ""
  CipherSuite : Nat := 0

/-- `StatsCollector.Connection` (main.go): the TCP connect phase record. -/
structure ConnectionPhase where
  StartTime : Int := 0
  EndTime : Int := 0
  Protocol : String := ""
  Address : String := ""
  Error : Option String := none

/-- `StatsCollector.Session` (main.go): the whole pre-transfer session
record; `Local`/`Remote` are nil `net.Addr` interfaces until `GotSession`
fires. -/
structure SessionPhase where
  StartTime : Int := 0
  EndTime : Int := 0
  HostPort : String := ""
  Local : Option String := none
  Remote : Option String := none

/-- `StatsCollector.Request` (main.go): the request-written record. -/
structure RequestPhase where
  StartTime : Int := 0
  Error : Option String := none

/-- `StatsCollector` (main.go): the trace collector and byte-counting
sink.  Field defaults are Go's zero values. -/
structure StatsCollector where
  TotalBytes : Nat := 0
  CurrentSecond : Int := 0
  CurrentSecBytes : Nat := 0
  PerSecond : List Nat := []
  StartTime : Int := 0
  EndTime : Int := 0
  Dns : DnsPhase := {}
  Tls : TlsPhase := {}
  Connection : ConnectionPhase := {}
  Session : SessionPhase := {}
  Request : RequestPhase := {}
  FirstByteTime : Int := 0
  RequestHeaders : Headers := []
  ResponseHeaders : Headers := []

/-- `StatsCollector.Write` (main.go): the byte-sink write of a chunk of
`n` bytes observed at wall-clock second `curr` (the source reads
`time.Now().Unix()`; the clock is an explicit argument here).  Returns
the updated collector together with the Go `(int, error)` result. -/
def StatsCollector.Write (c : StatsCollector) (n : Nat) (curr : Int) :
    StatsCollector × Nat × Option String :=
  let c1 := { c with TotalBytes := c.TotalBytes + n }
  let c2 :=
    if curr > c1.CurrentSecond then
      { c1 with PerSecond := c1.PerSecond ++ [c1.CurrentSecBytes],
                CurrentSecBytes := 0,
                CurrentSecond := curr }
    else c1
  ({ c2 with CurrentSecBytes := c2.CurrentSecBytes + n }, n, none)

/-- `StatsCollector.SetRequestHeaders` (main.go). -/
def StatsCollector.SetRequestHeaders (c : StatsCollector) (h : Headers) : StatsCollector :=
  { c with RequestHeaders := h }

/-- `StatsCollector.SetResponseHeaders` (main.go). -/
def StatsCollector.SetResponseHeaders (c : StatsCollector) (h : Headers) : StatsCollector :=
  { c with ResponseHeaders := h }

/-- `StatsCollector.StartDns` (main.go); `nowNano` is `time.Now().UnixNano()`. -/
def StatsCollector.StartDns (c : StatsCollector) (host : String) (nowNano : Int) : StatsCollector :=
  { c with Dns := { c.Dns with StartTime := nowNano, Host := host } }

/-- `StatsCollector.EndDns` (main.go). -/
def StatsCollector.EndDns (c : StatsCollector) (addrs : List String) (nowNano : Int) : StatsCollector :=
  { c with Dns := { c.Dns with EndTime := nowNano, Addrs := addrs } }

/-- `StatsCollector.WroteRequest` (main.go). -/
def StatsCollector.WroteRequest (c : StatsCollector) (e : Option String) (nowNano : Int) : StatsCollector :=
  { c with Request := { StartTime := nowNano, Error := e } }

/-- `StatsCollector.StartConnect` (main.go). -/
def StatsCollector.StartConnect (c : StatsCollector) (network addr : String) (nowNano : Int) : StatsCollector :=
  { c with Connection := { c.Connection with StartTime := nowNano, Protocol := network, Address := addr } }

/-- `StatsCollector.EndConnect` (main.go). -/
def StatsCollector.EndConnect (c : StatsCollector) (network addr : String) (e : Option String) (nowNano : Int) : StatsCollector :=
  { c with Connection := { c.Connection with EndTime := nowNano, Protocol := network, Address := addr, Error := e } }

/-- `StatsCollector.StartSession` (main.go). -/
def StatsCollector.StartSession (c : StatsCollector) (hostPort : String) (nowNano : Int) : StatsCollector :=
  { c with Session := { c.Session with StartTime := nowNano, HostPort := hostPort } }

/-- `StatsCollector.GotSession` (main.go). -/
def StatsCollector.GotSession (c : StatsCollector) (localAddr remoteAddr : String) (nowNano : Int) : StatsCollector :=
  { c with Session := { c.Session with EndTime := nowNano, Local := some localAddr, Remote := some remoteAddr } }

/-- `StatsCollector.FirstByteReceived` (main.go); also latches the
current wall-clock second for the byte-sink bucketing. -/
def StatsCollector.FirstByteReceived (c : StatsCollector) (nowNano nowSec : Int) : StatsCollector :=
  { c with FirstByteTime := nowNano, CurrentSecond := nowSec }

/-- `StatsCollector.StartTls` (main.go). -/
def StatsCollector.StartTls (c : StatsCollector) (nowNano : Int) : StatsCollector :=
  { c with Tls := { c.Tls with StartTime := nowNano } }

/-- `StatsCollector.EndTls` (main.go). -/
def StatsCollector.EndTls (c : StatsCollector) (v s : Nat) (n : String) (nowNano : Int) : StatsCollector :=
  { c with Tls := { c.Tls with EndTime := nowNano, Version := v, CipherSuite := s, ServerName := n } }

/-- `StatsCollector.Start` (main.go). -/
def StatsCollector.Start (c : StatsCollector) (nowNano : Int) : StatsCollector :=
  { c with StartTime := nowNano }

/-- `StatsCollector.Stop` (main.go). -/
def StatsCollector.Stop (c : StatsCollector) (nowNano : Int) : StatsCollector :=
  { c with EndTime := nowNano }

/-- `StatsCollector.DurationNS` (main.go). -/
def StatsCollector.DurationNS (c : StatsCollector) : Int :=
  c.EndTime - c.StartTime

/-- `StatsCollector.TotalBytesTransferred` (main.go). -/
def StatsCollector.TotalBytesTransferred (c : StatsCollector) : Nat :=
  c.TotalBytes

/-- The Go `Reporter` interface.  `Report` threads the collector
explicitly (the Go methods receive a pointer; none of them writes
through it, which is what the frame theorems establish). -/
structure Reporter where
  Report : StatsCollector → Outcome × StatsCollector
  Title : String
  Description : String

/-- Model of a row rendered by the external `tablewriter` dependency:
the cells in order, each followed by a separator, then a row terminator. -/
def renderRow (cells : List String) : String :=
  cells.foldr (fun c acc => c ++ ("|" ++ acc)) "\n"

/-- Model of the external `tablewriter` dependency (excluded by the
spec as an external collaborator): the header row followed by each
appended row. -/
def renderTable (hdr : List String) (rows : List (List String)) : String :=
  (hdr :: rows).foldr (fun r acc => renderRow r ++ acc) ""

/-- Model of `fmt` rendering of a `float64` with `%f`; the digit layout
belongs to the excluded formatting library, the rendered value is what
matters. -/
def fmtF (q : ℚ) : String := toString q

/-- Model of `fmt` `%s` rendering of the resolved-address slice. -/
def fmtAddrs (l : List String) : String := "[" ++ (String.intercalate " " l ++ "]")

/-- Model of `fmt` `%x` rendering of the TLS version word. -/
def fmtHex (n : Nat) : String := String.mk (Nat.toDigits 16 n)

/-- `ConnectionReporter.NsDiffInSeconds` (reporters.go):
`(float64(e) - float64(s)) / 1e9`, modelled exactly over `ℚ`. -/
def ConnectionReporter.NsDiffInSeconds (e s : Int) : ℚ :=
  ((e : ℚ) - (s : ℚ)) / 1000000000

/-- The five duration cells of the Connection report, in row order,
exactly as the source computes them (note the third cell: the source
passes `s.Tls.EndTime` and `s.Connection.StartTime`). -/
def ConnectionReporter.durations (s : StatsCollector) : List ℚ :=
  [ConnectionReporter.NsDiffInSeconds s.Dns.EndTime s.Dns.StartTime,
   ConnectionReporter.NsDiffInSeconds s.Connection.EndTime s.Connection.StartTime,
   ConnectionReporter.NsDiffInSeconds s.Tls.EndTime s.Connection.StartTime,
   ConnectionReporter.NsDiffInSeconds s.Request.StartTime s.Session.EndTime,
   ConnectionReporter.NsDiffInSeconds s.FirstByteTime s.Request.StartTime]

/-- The hint cells of the Connection report, in row order. -/
def ConnectionReporter.hints (s : StatsCollector) : List String :=
  [s.Dns.Host ++ ("\n" ++ fmtAddrs s.Dns.Addrs),
   s.Connection.Address,
   "ver: " ++ (fmtHex s.Tls.Version ++ ("\nname: " ++ s.Tls.ServerName)),
   "",
   ""]

/-- `ConnectionReporter.Report` (reporters.go). -/
def ConnectionReporter.Report (s : StatsCollector) : Outcome × StatsCollector :=
  (Outcome.ok (renderTable ["DNS Lookup", "Connection", "TLS", "Request", "First Byte"]
     [(ConnectionReporter.durations s).map fmtF, ConnectionReporter.hints s]), s)

/-- The `ConnectionReporter` variant with its `Title` and `Description`. -/
def ConnectionReporter.rep : Reporter :=
  ⟨ConnectionReporter.Report,
   "Session Establishment",
   "Shows the timing for various stages of establishment of a HTTP/HTTPS session"⟩

/-- The rows appended by `HeaderReporter.Report` for one section. -/
def sectionRows (sec : String) (h : Headers) : List (List String) :=
  h.flatMap fun kv => kv.snd.map fun v => [sec, kv.fst, v]

/-- All rows appended by `HeaderReporter.Report` (reporters.go):
request rows then response rows, one row per header value. -/
def HeaderReporter.rows (s : StatsCollector) : List (List String) :=
  sectionRows "Request" s.RequestHeaders ++ sectionRows "Response" s.ResponseHeaders

/-- `HeaderReporter.Report` (reporters.go). -/
def HeaderReporter.Report (s : StatsCollector) : Outcome × StatsCollector :=
  (Outcome.ok (renderTable ["", "Key", "Value"] (HeaderReporter.rows s)), s)

/-- The `HeaderReporter` variant with its `Title` and `Description`. -/
def HeaderReporter.rep : Reporter :=
  ⟨HeaderReporter.Report,
   "Request and Response Headers",
   "Shows Request and Response headers from a HTTP/HTTPS request"⟩

/-- `IpfsGwReporter.Report` (reporters.go): requires `X-Ipfs-Lb-Pop`
then `X-Ipfs-Pop`; renders the path table (dereferencing the session
addresses, a panic when they are nil) and appends the cache line only
when `X-Proxy-Cache` is present. -/
def IpfsGwReporter.Report (s : StatsCollector) : Outcome × StatsCollector :=
  if hdrGet s.ResponseHeaders "X-Ipfs-Lb-Pop" = [] then
    (Outcome.err "Header X-Ipfs-Lb-Pop is not present in response", s)
  else if hdrGet s.ResponseHeaders "X-Ipfs-Pop" = [] then
    (Outcome.err "Header X-Ipfs-Pop is not present in response", s)
  else
    match s.Session.Local, s.Session.Remote with
    | some l, some r =>
      let table := renderTable ["Client", "Gateway", "Load Balancer", "IPFS Node"]
        [[l, r, hdr0 (hdrGet s.ResponseHeaders "X-Ipfs-Lb-Pop"),
          hdr0 (hdrGet s.ResponseHeaders "X-Ipfs-Pop")]]
      let body :=
        if hdrGet s.ResponseHeaders "X-Proxy-Cache" = [] then table
        else table ++ ("The request was an IPFS gateway cache " ++
          (hdr0 (hdrGet s.ResponseHeaders "X-Proxy-Cache") ++ "\n"))
      (Outcome.ok body, s)
    | _, _ => (Outcome.panicked, s)

/-- The `IpfsGwReporter` variant with its `Title` and `Description`. -/
def IpfsGwReporter.rep : Reporter :=
  ⟨IpfsGwReporter.Report,
   "IPFS Gateway Path",
   "Shows Information about the path through the IPFS Gateway"⟩

/-- `SaturnReporter.Report` (reporters.go): requires the four Saturn
headers in a fixed check order, then renders the six-cell summary row
(dereferencing the session addresses, a panic when they are nil). -/
def SaturnReporter.Report (s : StatsCollector) : Outcome × StatsCollector :=
  if hdrGet s.ResponseHeaders "Saturn-Transfer-Id" = [] then
    (Outcome.err "Header Saturn-Transfer-Id not present in response", s)
  else if hdrGet s.ResponseHeaders "Saturn-Node-Id" = [] then
    (Outcome.err "Header Saturn-Node-Id not present in response", s)
  else if hdrGet s.ResponseHeaders "Saturn-Node-Version" = [] then
    (Outcome.err "Header Saturn-Node-Version not present in response", s)
  else if hdrGet s.ResponseHeaders "Saturn-Cache-Status" = [] then
    (Outcome.err "Header Saturn-Cache-Status not present in response", s)
  else
    match s.Session.Local, s.Session.Remote with
    | some l, some r =>
      (Outcome.ok (renderTable
        ["Client", "Transfer ID", "Saturn Node", "Saturn Node ID", "Node Version", "Cache Status"]
        [[l,
          hdr0 (hdrGet s.ResponseHeaders "Saturn-Transfer-Id"),
          r,
          hdr0 (hdrGet s.ResponseHeaders "Saturn-Node-Id"),
          hdr0 (hdrGet s.ResponseHeaders "Saturn-Node-Version"),
          hdr0 (hdrGet s.ResponseHeaders "Saturn-Cache-Status")]]), s)
    | _, _ => (Outcome.panicked, s)

/-- The `SaturnReporter` variant with its `Title` and `Description`. -/
def SaturnReporter.rep : Reporter :=
  ⟨SaturnReporter.Report,
   "Saturn CDN",
   "Shows information about Saturn CDN, where applicable"⟩

/-- `reportersList` (reporters.go): the fixed name-to-reporter catalog,
in source order. -/
def reportersList : List (String × Reporter) :=
  [("Connection", ConnectionReporter.rep),
   ("Header", HeaderReporter.rep),
   ("IPFSGW", IpfsGwReporter.rep),
   ("Saturn", SaturnReporter.rep)]

/-- Catalog lookup by case-sensitive name, Go's `reportersList[rep]`. -/
def lookupReporter (name : String) : Option Reporter :=
  (reportersList.find? (fun p => p.fst == name)).map Prod.snd

/-- Per-name outcome of the dispatch loop in `main` (main.go): a
recognized name runs its reporter, an unknown name is logged and
skipped. -/
inductive BatchEntry where
  | ran (name title descr : String) (result : Outcome)
  | skippedUnknown (name : String)
  deriving DecidableEq, Repr

/-- The dispatch loop of `main` (main.go) over the requested names. A
Go panic inside a reporter unwinds the whole loop, so a `panicked`
outcome ends the batch. -/
def runReporters (s : StatsCollector) : List String → List BatchEntry
  | [] => []
  | n :: ns =>
    match lookupReporter n with
    | none => BatchEntry.skippedUnknown n :: runReporters s ns
    | some r =>
      let o := (r.Report s).1
      BatchEntry.ran n r.Title r.Description o ::
        (if o = Outcome.panicked then [] else runReporters s ns)

/-- `t` occurs in `s` as a literal substring. -/
def ContainsSubstr (s t : String) : Prop := ∃ a b, s = a ++ (t ++ b)

/-- The given strings occur in `s` as literal substrings, in order. -/
def ContainsInOrder (s : String) : List String → Prop
  | [] => True
  | t :: ts => ∃ a b, s = a ++ (t ++ b) ∧ ContainsInOrder b ts

/-- The keys of a header map are distinct (true of every Go map). -/
def NodupKeys (h : Headers) : Prop := (h.map Prod.fst).Nodup

/-- Truncate every header value slice to its first element. -/
def firstOnly (h : Headers) : Headers := h.map fun kv => (kv.fst, kv.snd.take 1)

/-- A snapshot as handed to reporters by the orchestrator after a
completed exchange: the session addresses have been recorded (spec §3:
set together; §6: the core accepts a fully populated snapshot). -/
def wellFormed (s : StatsCollector) : Prop :=
  s.Session.Local.isSome ∧ s.Session.Remote.isSome

/-- A leading piece of the string can be skipped when locating ordered
substrings. -/
theorem ContainsInOrder.skip (x : String) {s : String} {ts : List String}
    (h : ContainsInOrder s ts) : ContainsInOrder (x ++ s) ts := by
  cases ts with
  | nil => trivial
  | cons t ts =>
    obtain ⟨a, b, heq, hrest⟩ := h
    exact ⟨x ++ a, b, by rw [heq, String.append_assoc], hrest⟩

/-- The next wanted substring can be taken from the front. -/
theorem ContainsInOrder.here (t : String) {s : String} {ts : List String}
    (h : ContainsInOrder s ts) : ContainsInOrder (t ++ s) (t :: ts) :=
  ⟨"", s, (String.empty_append (t ++ s)).symm, h⟩

/-- The empty list of wanted substrings is always found. -/
theorem ContainsInOrder.nil (s : String) : ContainsInOrder s [] := trivial

/-- A single ordered occurrence is a substring occurrence. -/
theorem ContainsSubstr_of_inOrder {s t : String} (h : ContainsInOrder s [t]) :
    ContainsSubstr s t := by
  obtain ⟨a, b, heq, -⟩ := h
  exact ⟨a, b, heq⟩

/-- Looking up after truncating every value slice to its head is the
truncation of the original lookup. -/
theorem hdrGet_firstOnly (h : Headers) (k : String) :
    hdrGet (firstOnly h) k = (hdrGet h k).take 1 := by
  induction h with
  | nil => rfl
  | cons kv t ih =>
    obtain ⟨k', vs⟩ := kv
    by_cases hk : (k' == k)
    · simp [firstOnly, hdrGet, hk]
    · simpa [firstOnly, hdrGet, hk] using ih

/-- `take 1` preserves emptiness. -/
theorem take1_eq_nil_iff (l : List String) : l.take 1 = [] ↔ l = [] := by
  cases l <;> simp

/-- `take 1` preserves the head cell the reporters read. -/
theorem hdr0_take1 (l : List String) : hdr0 (l.take 1) = hdr0 l := by
  cases l <;> rfl

/-- An absent key looks up to the nil slice. -/
theorem hdrGet_eq_nil_of_not_mem (h : Headers) (k : String)
    (hk : k ∉ h.map Prod.fst) : hdrGet h k = [] := by
  induction h with
  | nil => rfl
  | cons kv t ih =>
    obtain ⟨k', vs⟩ := kv
    simp only [List.map_cons, List.mem_cons] at hk
    push_neg at hk
    have : (k' == k) = false := by simpa [beq_iff_eq] using fun he => hk.1 he.symm
    simpa [hdrGet, this] using ih hk.2

/-- Every row of a section carries that section tag in its first cell. -/
theorem sectionRows_mem {sec : String} {h : Headers} {row : List String}
    (hm : row ∈ sectionRows sec h) : ∃ k x, row = [sec, k, x] := by
  simp only [sectionRows, List.mem_flatMap, List.mem_map] at hm
  obtain ⟨kv, -, x, -, hx⟩ := hm
  exact ⟨kv.fst, x, hx.symm⟩

/-- Counting the rows of one section that match a (key, value) pair
counts the occurrences of that value under that key, provided the map
keys are unique. -/
theorem countP_sectionRows (sec : String) (h : Headers) (hnd : (h.map Prod.fst).Nodup)
    (k v : String) :
    (sectionRows sec h).countP (fun row => decide (row = [sec, k, v]))
      = (hdrGet h k).countP (fun x => decide (x = v)) := by
  induction h with
  | nil => rfl
  | cons kv t ih =>
    obtain ⟨k', vs⟩ := kv
    simp only [List.map_cons, List.nodup_cons] at hnd
    have hrows : sectionRows sec ((k', vs) :: t)
        = (vs.map fun x => [sec, k', x]) ++ sectionRows sec t := by
      simp [sectionRows]
    rw [hrows, List.countP_append]
    by_cases hk : k' = k
    · subst hk
      have h1 : (vs.map fun x => [sec, k', x]).countP (fun row => decide (row = [sec, k', v]))
          = vs.countP (fun x => decide (x = v)) := by
        rw [List.countP_map]
        refine List.countP_congr fun x _ => ?_
        simp [Function.comp]
      have h2 : (sectionRows sec t).countP (fun row => decide (row = [sec, k', v])) = 0 := by
        refine List.countP_eq_zero.mpr fun row hr => ?_
        simp only [sectionRows, List.mem_flatMap, List.mem_map] at hr
        obtain ⟨kv2, hkv2, x2, -, hx2⟩ := hr
        intro hcontra
        simp only [decide_eq_true_eq] at hcontra
        rw [← hx2] at hcontra
        simp only [List.cons.injEq, and_true, true_and] at hcontra
        exact hnd.1 (hcontra.1 ▸ List.mem_map_of_mem Prod.fst hkv2)
      rw [h1, h2]
      simp [hdrGet]
    · have h1 : (vs.map fun x => [sec, k', x]).countP (fun row => decide (row = [sec, k, v])) = 0 := by
        refine List.countP_eq_zero.mpr fun row hr => ?_
        simp only [List.mem_map] at hr
        obtain ⟨x, -, hx⟩ := hr
        intro hcontra
        simp only [decide_eq_true_eq] at hcontra
        rw [← hx] at hcontra
        simp only [List.cons.injEq, and_true, true_and] at hcontra
        exact hk hcontra.1
      have hbk : (k' == k) = false := by simpa [beq_iff_eq] using hk
      rw [h1, ih hnd.2]
      simp [hdrGet, hbk]

/-- None of the reporters in the catalog writes to the snapshot. -/
theorem reportersFrame : ∀ p ∈ reportersList, ∀ s : StatsCollector, ((p.2).Report s).2 = s := by
  intro p hp s
  simp only [reportersList, List.mem_cons, List.not_mem_nil, or_false] at hp
  rcases hp with h | h | h | h <;> subst h <;>
    simp only [ConnectionReporter.rep, HeaderReporter.rep, IpfsGwReporter.rep, SaturnReporter.rep,
      ConnectionReporter.Report, HeaderReporter.Report, IpfsGwReporter.Report,
      SaturnReporter.Report] <;>
    (repeat' split) <;> rfl

/-- On a snapshot whose session addresses are recorded, no reporter in
the catalog panics. -/
theorem noPanic_of_wellFormed : ∀ s : StatsCollector, wellFormed s →
    ∀ p ∈ reportersList, ((p.2).Report s).1 ≠ Outcome.panicked := by
  intro s hwf p hp
  obtain ⟨hl, hr⟩ := hwf
  obtain ⟨l, hl⟩ := Option.isSome_iff_exists.mp hl
  obtain ⟨r, hr⟩ := Option.isSome_iff_exists.mp hr
  simp only [reportersList, List.mem_cons, List.not_mem_nil, or_false] at hp
  rcases hp with h | h | h | h <;> subst h <;>
    simp only [ConnectionReporter.rep, HeaderReporter.rep, IpfsGwReporter.rep, SaturnReporter.rep,
      ConnectionReporter.Report, HeaderReporter.Report, IpfsGwReporter.Report,
      SaturnReporter.Report, hl, hr] <;>
    (repeat' split) <;> simp

/-- A successful catalog lookup comes from a catalog entry. -/
theorem lookupReporter_mem {name : String} {r : Reporter}
    (h : lookupReporter name = some r) : ∃ p ∈ reportersList, p.2 = r := by
  unfold lookupReporter at h
  obtain ⟨p, hp, hpr⟩ := Option.map_eq_some'.mp h
  exact ⟨p, List.mem_of_find?_eq_some hp, hpr⟩

/-- Snapshot exercising the TLS column: the TCP connect pair is
(0, 50) ns and the TLS pair is (100, 300) ns. -/
def c1snap : StatsCollector :=
  { Connection := { StartTime := 0, EndTime := 50 },
    Tls := { StartTime := 100, EndTime := 300 } }

/-- C1: ConnectionReport is claimed to compute all five durations from
their own phase pair, the TLS one from the TLS pair.  The source
instead computes the TLS cell from `Tls.EndTime` and
`Connection.StartTime`: on `c1snap` the code reports 300 ns = 3e-7 s
where the TLS pair gives 200 ns = 2e-7 s.  The other four cells do
match their claimed pairs. -/
theorem c1_tls_duration_uses_connection_start :
    ConnectionReporter.durations c1snap = [0, 1 / 20000000, 3 / 10000000, 0, 0]
    ∧ ConnectionReporter.NsDiffInSeconds c1snap.Tls.EndTime c1snap.Tls.StartTime = 1 / 5000000
    ∧ ((3 : ℚ) / 10000000 ≠ 1 / 5000000) := by
  refine ⟨?_, ?_, by norm_num⟩
  · simp only [ConnectionReporter.durations, ConnectionReporter.NsDiffInSeconds, c1snap]
    norm_num
  · simp only [ConnectionReporter.NsDiffInSeconds, c1snap]
    norm_num

/-- Collector at the start of a transfer whose first byte arrived in
wall-clock second 100 (so `CurrentSecond` was latched to 100). -/
def c2base : StatsCollector := { CurrentSecond := 100 }

/-- `c2base` after byte-sink writes of 10, 20 and 30 bytes, all within
wall-clock second 100. -/
def c2after3 : StatsCollector := (((c2base.Write 10 100).1.Write 20 100).1.Write 30 100).1

/-- Collector whose recorded second is ahead of the next clock reading. -/
def c2cex : StatsCollector := { CurrentSecond := 10, CurrentSecBytes := 5 }

/-- C2 counterexample: the claim triggers the flush whenever the current
second *differs* from the recorded one, but the source only flushes when
it is *greater* (`curr > c.CurrentSecond`).  At second 9 with recorded
second 10 the seconds differ, yet nothing is appended and the
accumulator keeps accumulating. -/
theorem c2_differs_is_not_the_trigger :
    ((9 : Int) ≠ c2cex.CurrentSecond)
    ∧ (c2cex.Write 4 9).1.PerSecond = []
    ∧ (c2cex.Write 4 9).1.CurrentSecBytes = 9 :=
  ⟨by decide, by decide, by decide⟩

/-- C2 (amended: the flush triggers when the current second is greater
than the previously recorded second, not merely different): every write
of `n` bytes adds `n` to the running total; past a second boundary it
appends the previous accumulator to the series and restarts the
accumulator at `n`, otherwise it appends nothing and adds `n` to the
accumulator.  In particular writes of 10, 20, 30 within second 100
leave accumulator 60 and an empty series, and the first write after the
boundary appends exactly the entry 60 and restarts at the write size. -/
theorem c2_write_updates_buckets :
    (∀ (c : StatsCollector) (n : Nat) (curr : Int),
      ((c.Write n curr).1.TotalBytes = c.TotalBytes + n)
      ∧ (curr > c.CurrentSecond →
          (c.Write n curr).1.PerSecond = c.PerSecond ++ [c.CurrentSecBytes]
          ∧ (c.Write n curr).1.CurrentSecBytes = n
          ∧ (c.Write n curr).1.CurrentSecond = curr)
      ∧ (¬ curr > c.CurrentSecond →
          (c.Write n curr).1.PerSecond = c.PerSecond
          ∧ (c.Write n curr).1.CurrentSecBytes = c.CurrentSecBytes + n
          ∧ (c.Write n curr).1.CurrentSecond = c.CurrentSecond))
    ∧ (c2after3.CurrentSecBytes = 60 ∧ c2after3.PerSecond = []
       ∧ (c2after3.Write 7 101).1.PerSecond = [60]
       ∧ (c2after3.Write 7 101).1.CurrentSecBytes = 7) := by
  constructor
  · intro c n curr
    by_cases h : curr > c.CurrentSecond
    · refine ⟨by simp [StatsCollector.Write, h], fun _ => ?_, fun hc => absurd h hc⟩
      refine ⟨?_, ?_, ?_⟩ <;> simp [StatsCollector.Write, h]
    · refine ⟨by simp [StatsCollector.Write, h], fun hc => absurd hc h, fun _ => ?_⟩
      refine ⟨?_, ?_, ?_⟩ <;> simp [StatsCollector.Write, h]
  · exact ⟨by decide, by decide, by decide, by decide⟩

/-- C2 witness: a concrete boundary write, via the amended theorem. -/
theorem c2_write_updates_buckets_witness :
    (c2base.Write 5 101).1.PerSecond = c2base.PerSecond ++ [c2base.CurrentSecBytes]
    ∧ (c2base.Write 5 101).1.CurrentSecBytes = 5
    ∧ (c2base.Write 5 101).1.TotalBytes = c2base.TotalBytes + 5 := by
  have h := c2_write_updates_buckets.1 c2base 5 101
  exact ⟨(h.2.1 (by decide)).1, (h.2.1 (by decide)).2.1, h.1⟩

/-- C8: ConnectionReport returns success on every snapshot; unset
(zero-valued) timestamp fields never produce an error result. -/
theorem c8_connection_report_always_succeeds :
    ∀ s : StatsCollector, ∃ body, (ConnectionReporter.Report s).1 = Outcome.ok body :=
  fun _ => ⟨_, rfl⟩

/-- C10: the IPFS gateway and Saturn reporters read only the first
value of each response header they use (required headers and the
optional `X-Proxy-Cache` alike): truncating every response header value
slice to its first element leaves both reports unchanged. -/
theorem c10_reporters_use_first_header_value :
    ∀ s : StatsCollector,
      (IpfsGwReporter.Report { s with ResponseHeaders := firstOnly s.ResponseHeaders }).1
        = (IpfsGwReporter.Report s).1
      ∧ (SaturnReporter.Report { s with ResponseHeaders := firstOnly s.ResponseHeaders }).1
        = (SaturnReporter.Report s).1 := by
  intro s
  constructor
  · by_cases h1 : hdrGet s.ResponseHeaders "X-Ipfs-Lb-Pop" = [] <;>
    by_cases h2 : hdrGet s.ResponseHeaders "X-Ipfs-Pop" = [] <;>
    by_cases h3 : hdrGet s.ResponseHeaders "X-Proxy-Cache" = [] <;>
    rcases hL : s.Session.Local with _ | l <;>
    rcases hR : s.Session.Remote with _ | r <;>
    simp [IpfsGwReporter.Report, hdrGet_firstOnly, take1_eq_nil_iff, hdr0_take1, h1, h2, h3, hL, hR]
  · by_cases h1 : hdrGet s.ResponseHeaders "Saturn-Transfer-Id" = [] <;>
    by_cases h2 : hdrGet s.ResponseHeaders "Saturn-Node-Id" = [] <;>
    by_cases h3 : hdrGet s.ResponseHeaders "Saturn-Node-Version" = [] <;>
    by_cases h4 : hdrGet s.ResponseHeaders "Saturn-Cache-Status" = [] <;>
    rcases hL : s.Session.Local with _ | l <;>
    rcases hR : s.Session.Remote with _ | r <;>
    simp [SaturnReporter.Report, hdrGet_firstOnly, take1_eq_nil_iff, hdr0_take1, h1, h2, h3, h4, hL, hR]

/-- Snapshot whose required IPFS headers are present but whose session
phase never fired: the `net.Addr` fields are still nil. -/
def c3snap : StatsCollector :=
  { ResponseHeaders := [("X-Ipfs-Lb-Pop", ["gateway-bank1-sg1"]), ("X-Ipfs-Pop", ["ipfs-bank5-sg1"])] }

/-- C3 counterexample: on a snapshot with the required headers but unset
session addresses, the IPFS gateway reporter dereferences a nil
`net.Addr` and panics instead of returning a (string, error) pair. -/
theorem c3_nil_session_panics :
    (IpfsGwReporter.Report c3snap).1 = Outcome.panicked := by decide

/-- C3 (amended: restricted to snapshots whose session addresses were
recorded, as the orchestrator hands over after a completed exchange):
no reporter in the catalog panics, and the byte-sink write always
returns `(n, nil)`. -/
theorem c3_no_uncontrolled_failure :
    ∀ s : StatsCollector, wellFormed s →
      (∀ p ∈ reportersList, ((p.2).Report s).1 ≠ Outcome.panicked)
      ∧ (∀ (n : Nat) (curr : Int), (s.Write n curr).2 = (n, (none : Option String))) := by
  intro s hwf
  exact ⟨noPanic_of_wellFormed s hwf, fun _ _ => rfl⟩

/-- Snapshot with recorded session addresses and no response headers. -/
def demoSnap : StatsCollector :=
  { Session := { Local := some "192.168.0.6:56985", Remote := some "209.94.90.1:443" } }

/-- C3 witness: the amended theorem at `demoSnap`, instantiated for the
IPFS gateway reporter and a concrete write. -/
theorem c3_no_uncontrolled_failure_witness :
    ((IpfsGwReporter.rep.Report demoSnap).1 ≠ Outcome.panicked)
    ∧ (demoSnap.Write 4 7).2 = (4, (none : Option String)) := by
  have h := c3_no_uncontrolled_failure demoSnap (by exact ⟨rfl, rfl⟩)
  exact ⟨h.1 ("IPFSGW", IpfsGwReporter.rep)
      (List.Mem.tail _ (List.Mem.tail _ (List.Mem.head _))), h.2 4 7⟩

/-- C4: the IPFS gateway report errors exactly when a required response
header is absent, naming the first missing one in check order
(`X-Ipfs-Lb-Pop` before `X-Ipfs-Pop`); with both present and
`X-Proxy-Cache` mapped to `["HIT"]` it succeeds with a body containing
the literal substring HIT; with `X-Proxy-Cache` absent the body is the
bare table, the cache-status line omitted. -/
theorem c4_ipfs_gateway_report :
    ∀ s : StatsCollector, wellFormed s →
      ((hdrGet s.ResponseHeaders "X-Ipfs-Lb-Pop" = [] →
          (IpfsGwReporter.Report s).1 = Outcome.err "Header X-Ipfs-Lb-Pop is not present in response")
       ∧ (hdrGet s.ResponseHeaders "X-Ipfs-Lb-Pop" ≠ [] →
            hdrGet s.ResponseHeaders "X-Ipfs-Pop" = [] →
            (IpfsGwReporter.Report s).1 = Outcome.err "Header X-Ipfs-Pop is not present in response")
       ∧ ((∃ m, (IpfsGwReporter.Report s).1 = Outcome.err m) ↔
            (hdrGet s.ResponseHeaders "X-Ipfs-Lb-Pop" = []
             ∨ hdrGet s.ResponseHeaders "X-Ipfs-Pop" = []))
       ∧ (hdrGet s.ResponseHeaders "X-Ipfs-Lb-Pop" ≠ [] →
            hdrGet s.ResponseHeaders "X-Ipfs-Pop" ≠ [] →
            hdrGet s.ResponseHeaders "X-Proxy-Cache" = ["HIT"] →
            ∃ body, (IpfsGwReporter.Report s).1 = Outcome.ok body ∧ ContainsSubstr body "HIT")
       ∧ (∀ l r, s.Session.Local = some l → s.Session.Remote = some r →
            hdrGet s.ResponseHeaders "X-Ipfs-Lb-Pop" ≠ [] →
            hdrGet s.ResponseHeaders "X-Ipfs-Pop" ≠ [] →
            hdrGet s.ResponseHeaders "X-Proxy-Cache" = [] →
            (IpfsGwReporter.Report s).1 = Outcome.ok (renderTable
              ["Client", "Gateway", "Load Balancer", "IPFS Node"]
              [[l, r, hdr0 (hdrGet s.ResponseHeaders "X-Ipfs-Lb-Pop"),
                hdr0 (hdrGet s.ResponseHeaders "X-Ipfs-Pop")]]))) := by
  intro s hwf
  obtain ⟨hl, hr⟩ := hwf
  obtain ⟨l, hl⟩ := Option.isSome_iff_exists.mp hl
  obtain ⟨r, hr⟩ := Option.isSome_iff_exists.mp hr
  refine ⟨fun h1 => by simp [IpfsGwReporter.Report, h1],
          fun h1 h2 => by simp [IpfsGwReporter.Report, h1, h2], ?_, ?_, ?_⟩
  · constructor
    · rintro ⟨m, hm⟩
      by_cases h1 : hdrGet s.ResponseHeaders "X-Ipfs-Lb-Pop" = []
      · exact Or.inl h1
      by_cases h2 : hdrGet s.ResponseHeaders "X-Ipfs-Pop" = []
      · exact Or.inr h2
      exfalso
      by_cases h3 : hdrGet s.ResponseHeaders "X-Proxy-Cache" = [] <;>
        simp [IpfsGwReporter.Report, h1, h2, h3, hl, hr] at hm
    · rintro (h1 | h2)
      · exact ⟨"Header X-Ipfs-Lb-Pop is not present in response", by simp [IpfsGwReporter.Report, h1]⟩
      · by_cases h1 : hdrGet s.ResponseHeaders "X-Ipfs-Lb-Pop" = []
        · exact ⟨"Header X-Ipfs-Lb-Pop is not present in response", by simp [IpfsGwReporter.Report, h1]⟩
        · exact ⟨"Header X-Ipfs-Pop is not present in response", by simp [IpfsGwReporter.Report, h1, h2]⟩
  · intro h1 h2 h3
    refine ⟨renderTable ["Client", "Gateway", "Load Balancer", "IPFS Node"]
        [[l, r, hdr0 (hdrGet s.ResponseHeaders "X-Ipfs-Lb-Pop"),
          hdr0 (hdrGet s.ResponseHeaders "X-Ipfs-Pop")]]
        ++ ("The request was an IPFS gateway cache " ++ ("HIT" ++ "\n")), ?_, ?_⟩
    · simp [IpfsGwReporter.Report, h1, h2, h3, hl, hr, hdr0]
    · exact ContainsSubstr_of_inOrder
        (ContainsInOrder.skip _ (ContainsInOrder.skip _
          (ContainsInOrder.here _ (ContainsInOrder.nil _))))
  · intro l' r' hl' hr' h1 h2 h3
    simp [IpfsGwReporter.Report, h1, h2, h3, hl', hr']

/-- Snapshot for the IPFS gateway success path: both required headers
and a HIT cache status. -/
def ipfsSnap : StatsCollector :=
  { Session := { Local := some "192.168.0.6:56985", Remote := some "209.94.90.1:443" },
    ResponseHeaders := [("X-Ipfs-Lb-Pop", ["gateway-bank1-sg1"]),
                        ("X-Ipfs-Pop", ["ipfs-bank5-sg1"]),
                        ("X-Proxy-Cache", ["HIT"])] }

/-- C4 witness: the success path on `ipfsSnap`, and the first-missing
error on the same snapshot with its response headers removed. -/
theorem c4_ipfs_gateway_report_witness :
    (∃ body, (IpfsGwReporter.Report ipfsSnap).1 = Outcome.ok body ∧ ContainsSubstr body "HIT")
    ∧ (IpfsGwReporter.Report { ipfsSnap with ResponseHeaders := [] }).1
        = Outcome.err "Header X-Ipfs-Lb-Pop is not present in response" := by
  have h1 := c4_ipfs_gateway_report ipfsSnap (by exact ⟨rfl, rfl⟩)
  have h2 := c4_ipfs_gateway_report { ipfsSnap with ResponseHeaders := [] } (by exact ⟨rfl, rfl⟩)
  exact ⟨h1.2.2.2.1 (by decide) (by decide) (by decide), h2.1 (by decide)⟩

/-- The rendered Saturn table contains the transfer id, node id, node
version and cache status cells as substrings in row order. -/
theorem saturnRow_inOrder (hdrRow : List String) (l t0 r n0 v0 c0 : String) :
    ContainsInOrder (renderTable hdrRow [[l, t0, r, n0, v0, c0]]) [t0, n0, v0, c0] := by
  show ContainsInOrder (renderRow hdrRow ++ (renderRow [l, t0, r, n0, v0, c0] ++ "")) [t0, n0, v0, c0]
  refine ContainsInOrder.skip _ ?_
  rw [String.append_empty]
  show ContainsInOrder
    (l ++ ("|" ++ (t0 ++ ("|" ++ (r ++ ("|" ++ (n0 ++ ("|" ++ (v0 ++ ("|" ++ (c0 ++ ("|" ++ "\n"))))))))))))
    [t0, n0, v0, c0]
  exact ContainsInOrder.skip _ (ContainsInOrder.skip _ (ContainsInOrder.here _
    (ContainsInOrder.skip _ (ContainsInOrder.skip _ (ContainsInOrder.skip _
      (ContainsInOrder.here _ (ContainsInOrder.skip _ (ContainsInOrder.here _
        (ContainsInOrder.skip _ (ContainsInOrder.here _ (ContainsInOrder.nil _)))))))))))

/-- C5: the Saturn report errors exactly when one of its four required
response headers is absent, naming the first missing one in the fixed
check order; with all four present it succeeds and its body contains
the transfer id, node id, node version and cache status values as
substrings in that order. -/
theorem c5_saturn_report :
    ∀ s : StatsCollector, wellFormed s →
      ((hdrGet s.ResponseHeaders "Saturn-Transfer-Id" = [] →
          (SaturnReporter.Report s).1 = Outcome.err "Header Saturn-Transfer-Id not present in response")
       ∧ (hdrGet s.ResponseHeaders "Saturn-Transfer-Id" ≠ [] →
            hdrGet s.ResponseHeaders "Saturn-Node-Id" = [] →
            (SaturnReporter.Report s).1 = Outcome.err "Header Saturn-Node-Id not present in response")
       ∧ (hdrGet s.ResponseHeaders "Saturn-Transfer-Id" ≠ [] →
            hdrGet s.ResponseHeaders "Saturn-Node-Id" ≠ [] →
            hdrGet s.ResponseHeaders "Saturn-Node-Version" = [] →
            (SaturnReporter.Report s).1 = Outcome.err "Header Saturn-Node-Version not present in response")
       ∧ (hdrGet s.ResponseHeaders "Saturn-Transfer-Id" ≠ [] →
            hdrGet s.ResponseHeaders "Saturn-Node-Id" ≠ [] →
            hdrGet s.ResponseHeaders "Saturn-Node-Version" ≠ [] →
            hdrGet s.ResponseHeaders "Saturn-Cache-Status" = [] →
            (SaturnReporter.Report s).1 = Outcome.err "Header Saturn-Cache-Status not present in response")
       ∧ ((∃ m, (SaturnReporter.Report s).1 = Outcome.err m) ↔
            (hdrGet s.ResponseHeaders "Saturn-Transfer-Id" = []
             ∨ hdrGet s.ResponseHeaders "Saturn-Node-Id" = []
             ∨ hdrGet s.ResponseHeaders "Saturn-Node-Version" = []
             ∨ hdrGet s.ResponseHeaders "Saturn-Cache-Status" = []))
       ∧ (hdrGet s.ResponseHeaders "Saturn-Transfer-Id" ≠ [] →
            hdrGet s.ResponseHeaders "Saturn-Node-Id" ≠ [] →
            hdrGet s.ResponseHeaders "Saturn-Node-Version" ≠ [] →
            hdrGet s.ResponseHeaders "Saturn-Cache-Status" ≠ [] →
            ∃ body, (SaturnReporter.Report s).1 = Outcome.ok body
              ∧ ContainsInOrder body
                  [hdr0 (hdrGet s.ResponseHeaders "Saturn-Transfer-Id"),
                   hdr0 (hdrGet s.ResponseHeaders "Saturn-Node-Id"),
                   hdr0 (hdrGet s.ResponseHeaders "Saturn-Node-Version"),
                   hdr0 (hdrGet s.ResponseHeaders "Saturn-Cache-Status")])) := by
  intro s hwf
  obtain ⟨hl, hr⟩ := hwf
  obtain ⟨l, hl⟩ := Option.isSome_iff_exists.mp hl
  obtain ⟨r, hr⟩ := Option.isSome_iff_exists.mp hr
  refine ⟨fun h1 => by simp [SaturnReporter.Report, h1],
          fun h1 h2 => by simp [SaturnReporter.Report, h1, h2],
          fun h1 h2 h3 => by simp [SaturnReporter.Report, h1, h2, h3],
          fun h1 h2 h3 h4 => by simp [SaturnReporter.Report, h1, h2, h3, h4], ?_, ?_⟩
  · constructor
    · rintro ⟨m, hm⟩
      by_cases h1 : hdrGet s.ResponseHeaders "Saturn-Transfer-Id" = []
      · exact Or.inl h1
      by_cases h2 : hdrGet s.ResponseHeaders "Saturn-Node-Id" = []
      · exact Or.inr (Or.inl h2)
      by_cases h3 : hdrGet s.ResponseHeaders "Saturn-Node-Version" = []
      · exact Or.inr (Or.inr (Or.inl h3))
      by_cases h4 : hdrGet s.ResponseHeaders "Saturn-Cache-Status" = []
      · exact Or.inr (Or.inr (Or.inr h4))
      exfalso
      simp [SaturnReporter.Report, h1, h2, h3, h4, hl, hr] at hm
    · rintro (h1 | h2 | h3 | h4)
      · exact ⟨"Header Saturn-Transfer-Id not present in response", by simp [SaturnReporter.Report, h1]⟩
      · by_cases h1 : hdrGet s.ResponseHeaders "Saturn-Transfer-Id" = []
        · exact ⟨"Header Saturn-Transfer-Id not present in response", by simp [SaturnReporter.Report, h1]⟩
        · exact ⟨"Header Saturn-Node-Id not present in response", by simp [SaturnReporter.Report, h1, h2]⟩
      · by_cases h1 : hdrGet s.ResponseHeaders "Saturn-Transfer-Id" = []
        · exact ⟨"Header Saturn-Transfer-Id not present in response", by simp [SaturnReporter.Report, h1]⟩
        by_cases h2 : hdrGet s.ResponseHeaders "Saturn-Node-Id" = []
        · exact ⟨"Header Saturn-Node-Id not present in response", by simp [SaturnReporter.Report, h1, h2]⟩
        · exact ⟨"Header Saturn-Node-Version not present in response", by simp [SaturnReporter.Report, h1, h2, h3]⟩
      · by_cases h1 : hdrGet s.ResponseHeaders "Saturn-Transfer-Id" = []
        · exact ⟨"Header Saturn-Transfer-Id not present in response", by simp [SaturnReporter.Report, h1]⟩
        by_cases h2 : hdrGet s.ResponseHeaders "Saturn-Node-Id" = []
        · exact ⟨"Header Saturn-Node-Id not present in response", by simp [SaturnReporter.Report, h1, h2]⟩
        by_cases h3 : hdrGet s.ResponseHeaders "Saturn-Node-Version" = []
        · exact ⟨"Header Saturn-Node-Version not present in response", by simp [SaturnReporter.Report, h1, h2, h3]⟩
        · exact ⟨"Header Saturn-Cache-Status not present in response", by simp [SaturnReporter.Report, h1, h2, h3, h4]⟩
  · intro h1 h2 h3 h4
    refine ⟨renderTable
        ["Client", "Transfer ID", "Saturn Node", "Saturn Node ID", "Node Version", "Cache Status"]
        [[l, hdr0 (hdrGet s.ResponseHeaders "Saturn-Transfer-Id"), r,
          hdr0 (hdrGet s.ResponseHeaders "Saturn-Node-Id"),
          hdr0 (hdrGet s.ResponseHeaders "Saturn-Node-Version"),
          hdr0 (hdrGet s.ResponseHeaders "Saturn-Cache-Status")]], ?_, ?_⟩
    · simp [SaturnReporter.Report, h1, h2, h3, h4, hl, hr]
    · exact saturnRow_inOrder _ l _ r _ _ _

/-- Snapshot for the Saturn success path: all four required headers. -/
def saturnSnap : StatsCollector :=
  { Session := { Local := some "172.16.1.53:54757", Remote := some "103.93.130.94:443" },
    ResponseHeaders := [("Saturn-Transfer-Id", ["t1"]), ("Saturn-Node-Id", ["n1"]),
                        ("Saturn-Node-Version", ["v1"]), ("Saturn-Cache-Status", ["HIT"])] }

/-- C5 witness: the success path on `saturnSnap`, and the first-missing
error when the transfer id header is removed. -/
theorem c5_saturn_report_witness :
    (∃ body, (SaturnReporter.Report saturnSnap).1 = Outcome.ok body
      ∧ ContainsInOrder body ["t1", "n1", "v1", "HIT"])
    ∧ (SaturnReporter.Report { saturnSnap with ResponseHeaders := [] }).1
        = Outcome.err "Header Saturn-Transfer-Id not present in response" := by
  have h := (c5_saturn_report saturnSnap (by exact ⟨rfl, rfl⟩)).2.2.2.2.2
    (by decide) (by decide) (by decide) (by decide)
  have h2 := (c5_saturn_report { saturnSnap with ResponseHeaders := [] } (by exact ⟨rfl, rfl⟩)).1
  exact ⟨h, h2 (by decide)⟩

/-- Snapshot with one multi-valued request header and no response
headers. -/
def c6snap : StatsCollector := { RequestHeaders := [("A", ["1", "2"])], ResponseHeaders := [] }

/-- C6: HeaderReport always succeeds (empty maps included) and emits
exactly one row per (section, key, value) triple: for unique map keys
the number of rows matching a triple equals the number of occurrences
of that value under that key, and on request headers A maps-to [1, 2]
with empty response headers there are exactly two Request rows and zero
Response rows. -/
theorem c6_header_report_rows :
    (∀ s : StatsCollector, NodupKeys s.RequestHeaders → NodupKeys s.ResponseHeaders →
      (∃ body, (HeaderReporter.Report s).1 = Outcome.ok body)
      ∧ (∀ k v, (HeaderReporter.rows s).countP (fun row => decide (row = ["Request", k, v]))
            = (hdrGet s.RequestHeaders k).countP (fun x => decide (x = v)))
      ∧ (∀ k v, (HeaderReporter.rows s).countP (fun row => decide (row = ["Response", k, v]))
            = (hdrGet s.ResponseHeaders k).countP (fun x => decide (x = v))))
    ∧ ((HeaderReporter.rows c6snap).countP (fun row => decide (row.head? = some "Request")) = 2
       ∧ (HeaderReporter.rows c6snap).countP (fun row => decide (row.head? = some "Response")) = 0) := by
  constructor
  · intro s hreq hresp
    refine ⟨⟨_, rfl⟩, fun k v => ?_, fun k v => ?_⟩
    · unfold HeaderReporter.rows
      rw [List.countP_append]
      have hz : (sectionRows "Response" s.ResponseHeaders).countP
          (fun row => decide (row = ["Request", k, v])) = 0 := by
        refine List.countP_eq_zero.mpr fun row hr => ?_
        obtain ⟨k2, x2, hx⟩ := sectionRows_mem hr
        subst hx
        simp
      rw [hz, countP_sectionRows "Request" s.RequestHeaders hreq k v, Nat.add_zero]
    · unfold HeaderReporter.rows
      rw [List.countP_append]
      have hz : (sectionRows "Request" s.RequestHeaders).countP
          (fun row => decide (row = ["Response", k, v])) = 0 := by
        refine List.countP_eq_zero.mpr fun row hr => ?_
        obtain ⟨k2, x2, hx⟩ := sectionRows_mem hr
        subst hx
        simp
      rw [hz, countP_sectionRows "Response" s.ResponseHeaders hresp k v, Nat.zero_add]
  · exact ⟨by decide, by decide⟩

/-- C6 witness: the general row count instantiated on `c6snap`. -/
theorem c6_header_report_rows_witness :
    (∃ body, (HeaderReporter.Report c6snap).1 = Outcome.ok body)
    ∧ (HeaderReporter.rows c6snap).countP (fun row => decide (row = ["Request", "A", "2"]))
        = (hdrGet c6snap.RequestHeaders "A").countP (fun x => decide (x = "2")) := by
  have h := c6_header_report_rows.1 c6snap (by simp [NodupKeys, c6snap]) (by simp [NodupKeys, c6snap])
  exact ⟨h.1, h.2.1 "A" "2"⟩

/-- C7: on a well-formed snapshot the dispatch loop treats each
requested name independently: the batch output is the concatenation of
each name's solo outcome, an unknown name yields exactly a skip entry,
and a recognized name yields exactly the (title, description,
body-or-error) entry its reporter produces alone. -/
theorem c7_unknown_names_skipped_batch_independent :
    ∀ s : StatsCollector, wellFormed s → ∀ names : List String,
      (runReporters s names = names.flatMap fun n => runReporters s [n])
      ∧ (∀ n, lookupReporter n = none → runReporters s [n] = [BatchEntry.skippedUnknown n])
      ∧ (∀ n r, lookupReporter n = some r →
          runReporters s [n] = [BatchEntry.ran n r.Title r.Description ((r.Report s).1)]) := by
  intro s hwf names
  have hnp : ∀ p ∈ reportersList, ((p.2).Report s).1 ≠ Outcome.panicked :=
    noPanic_of_wellFormed s hwf
  refine ⟨?_, ?_, ?_⟩
  · induction names with
    | nil => rfl
    | cons n ns ih =>
      cases hl : lookupReporter n with
      | none => simp [runReporters, hl, ih]
      | some r =>
        obtain ⟨p, hp, hpr⟩ := lookupReporter_mem hl
        have hnr : (r.Report s).1 ≠ Outcome.panicked := hpr ▸ hnp p hp
        simp [runReporters, hl, hnr, ih]
  · intro n hn
    simp [runReporters, hn]
  · intro n r hn
    simp [runReporters, hn]

/-- C7 witness: the unknown name Bogus is skipped and leaves the valid
name Header with exactly its solo outcome. -/
theorem c7_unknown_names_skipped_witness :
    runReporters demoSnap ["Bogus", "Header"]
      = runReporters demoSnap ["Bogus"] ++ runReporters demoSnap ["Header"]
    ∧ runReporters demoSnap ["Bogus"] = [BatchEntry.skippedUnknown "Bogus"]
    ∧ runReporters demoSnap ["Header"]
      = [BatchEntry.ran "Header" HeaderReporter.rep.Title HeaderReporter.rep.Description
          ((HeaderReporter.rep.Report demoSnap).1)] := by
  have h := c7_unknown_names_skipped_batch_independent demoSnap (by exact ⟨rfl, rfl⟩)
    ["Bogus", "Header"]
  refine ⟨?_, h.2.1 "Bogus" rfl, h.2.2 "Header" HeaderReporter.rep rfl⟩
  rw [h.1]
  simp

/-- C9: a catalog reporter's `Report` never mutates the snapshot and
its outcome is a function of the snapshot alone: running it after any
other catalog reporter gives the same outcome as running it alone. -/
theorem c9_reporters_pure_of_snapshot :
    ∀ (nm : String) (r : Reporter) (s : StatsCollector), lookupReporter nm = some r →
      ((r.Report s).2 = s
       ∧ ∀ (nm2 : String) (r2 : Reporter), lookupReporter nm2 = some r2 →
           (r.Report ((r2.Report s).2)).1 = (r.Report s).1) := by
  intro nm r s h
  obtain ⟨p, hp, hpr⟩ := lookupReporter_mem h
  refine ⟨hpr ▸ reportersFrame p hp s, ?_⟩
  intro nm2 r2 h2
  obtain ⟨p2, hp2, hpr2⟩ := lookupReporter_mem h2
  have hf2 : (r2.Report s).2 = s := hpr2 ▸ reportersFrame p2 hp2 s
  rw [hf2]

/-- C9 witness: the Header reporter on `demoSnap`, alone and after the
Connection reporter. -/
theorem c9_reporters_pure_witness :
    (HeaderReporter.rep.Report demoSnap).2 = demoSnap
    ∧ (HeaderReporter.rep.Report ((ConnectionReporter.rep.Report demoSnap).2)).1
        = (HeaderReporter.rep.Report demoSnap).1 := by
  have h := c9_reporters_pure_of_snapshot "Header" HeaderReporter.rep demoSnap rfl
  exact ⟨h.1, h.2 "Connection" ConnectionReporter.rep rfl⟩
